import Mathlib

/-
Verification of the Logger Hub client module
(`pr_agent/algo/logger_hub_client.py`).

The module is a fire-and-forget telemetry shim with three pieces:
  * `build_ai_log_data` — a pure builder of a flat key/value log record;
  * `send_to_logger_hub` — an async HTTP POST with a fixed timeout,
    gated on configuration, that swallows every exception and returns
    a boolean;
  * `log_ai_request_sync` — a synchronous dispatch wrapper that either
    schedules delivery as a detached task (when an event loop is
    running), runs it to completion on the current loop, or falls back
    to `asyncio.run` when no event loop exists.

The shallow embedding below models Python dictionaries as association
lists in insertion order (Python dicts preserve insertion order and all
keys inserted here are distinct literals), JSON-serializable values as
the inductive `Value`, the settings store as a structure of the two
retrieved strings (a missing setting is retrieved as `""`, the default
passed to `get`), the network as a function from the issued request to
an outcome, and Python exceptions as the inductive `PyExn`.  A function
that may let an exception escape to its caller returns a `PyResult`;
outbound network requests are collected in an explicit trace.
-/

namespace LoggerHub

/-- JSON-like values carried in a log record (`Any` on the Python side). -/
inductive Value where
  | str (s : String)
  | num (q : ℚ)
  | boolean (b : Bool)
  | dict (fields : List (String × Value))
  | null

/-- A Python exception, as far as this module distinguishes them:
`asyncio.TimeoutError`, `RuntimeError` (the class caught by name in
`log_ai_request_sync`), and any other `Exception`. -/
inductive PyExn where
  | timeoutError
  | runtimeError (msg : String)
  | otherError (msg : String)
deriving DecidableEq, Repr

/-- Result of a Python call as seen by its caller: a returned value, or
an exception that escaped the call. -/
inductive PyResult (α : Type) where
  | ok (a : α)
  | raised (e : PyExn)
deriving DecidableEq, Repr

/-- The two settings this module reads.  `get_settings().get(key, "")`
returns the configured string or `""` when the key is missing, so a
missing setting is modelled by the empty string. -/
structure Settings where
  endpoint : String
  api_key : String

/-- `LOGGER_HUB_TIMEOUT = 5  # seconds` -/
def LOGGER_HUB_TIMEOUT : ℕ := 5

/-- The one outbound HTTP request `send_to_logger_hub` can issue:
method, URL, JSON body (an association list, as the `json=` argument),
headers, and the total timeout in seconds. -/
structure Request where
  method : String
  url : String
  body : List (String × Value)
  headers : List (String × String)
  timeout : ℕ

/-- The request built by `session.post(f"{endpoint}/log", json={...},
headers={...}, timeout=ClientTimeout(total=LOGGER_HUB_TIMEOUT))`. -/
def mkRequest (settings : Settings) (collection : String)
    (data : List (String × Value)) : Request :=
  { method := "POST"
    url := settings.endpoint ++ "/log"
    body := [("collection", Value.str collection), ("data", Value.dict data)]
    headers := [("Content-Type", "application/json"),
                ("x-api-key", settings.api_key)]
    timeout := LOGGER_HUB_TIMEOUT }

/-- What the network does with an issued request: an HTTP response with
some status code, or an exception raised during the attempt (timeout or
any transport/runtime error). -/
inductive NetOutcome where
  | status (code : ℕ)
  | raise (e : PyExn)

/-- Output of `send_to_logger_hub`: the result seen by the caller and
the trace of network requests issued (at most one). -/
structure SendOutput where
  result : PyResult Bool
  requests : List Request

/-- `send_to_logger_hub(collection, data)`.  Reads endpoint and API key
from the settings; if either is empty (Python falsy for `str`) it
returns `False` without touching the network.  Otherwise it performs
one POST, returns `True` exactly on HTTP 200, `False` on any other
status, and catches `asyncio.TimeoutError` and every other `Exception`
from the attempt, returning `False`. -/
def send_to_logger_hub (settings : Settings) (net : Request → NetOutcome)
    (collection : String) (data : List (String × Value)) : SendOutput :=
  if settings.endpoint = "" ∨ settings.api_key = "" then
    { result := .ok false, requests := [] }
  else
    let req := mkRequest settings collection data
    match net req with
    | .status code =>
        if code = 200 then { result := .ok true, requests := [req] }
        else { result := .ok false, requests := [req] }
    | .raise .timeoutError => { result := .ok false, requests := [req] }
    | .raise _ => { result := .ok false, requests := [req] }

/-- An asyncio event loop, as far as the wrapper inspects it. -/
structure EventLoop where
  is_running : Bool

/-- The ambient asyncio state the wrapper interacts with: what
`asyncio.get_event_loop()` yields (a loop or an exception), and whether
each of `asyncio.create_task`, `loop.run_until_complete` and
`asyncio.run` itself raises (`none` = succeeds). -/
structure AsyncEnv where
  get_event_loop : Except PyExn EventLoop
  create_task_exn : Option PyExn
  run_until_complete_exn : Option PyExn
  asyncio_run_exn : Option PyExn

/-- Observable actions of one `log_ai_request_sync` call: scheduling
the delivery coroutine as a detached task, running it to completion via
`loop.run_until_complete`, running it to completion via `asyncio.run`,
or emitting the debug diagnostic from the generic handler. -/
inductive Action where
  | createTask (collection : String) (data : List (String × Value))
  | runUntilComplete (out : SendOutput)
  | asyncioRun (out : SendOutput)
  | debugLog (msg : String)

/-- `log_ai_request_sync(collection, data)`.  Mirrors the Python
`try/except RuntimeError/except Exception` exactly: an exception raised
in the `try` block is handled by the first matching clause; a
`RuntimeError` triggers the `asyncio.run` fallback, any other exception
only the debug diagnostic.  An exception raised *inside* the
`RuntimeError` handler (i.e. by `asyncio.run` itself) is not caught by
the sibling `except Exception` clause and escapes to the caller. -/
def log_ai_request_sync (aenv : AsyncEnv) (settings : Settings)
    (net : Request → NetOutcome) (collection : String)
    (data : List (String × Value)) : PyResult Unit × List Action :=
  let handle : PyExn → PyResult Unit × List Action := fun e =>
    match e with
    | .runtimeError _ =>
        match aenv.asyncio_run_exn with
        | some e2 => (.raised e2, [])
        | none =>
            (.ok (), [.asyncioRun (send_to_logger_hub settings net collection data)])
    | _ => (.ok (), [.debugLog "Logger Hub: sync wrapper failed"])
  match aenv.get_event_loop with
  | .error e => handle e
  | .ok loop =>
      if loop.is_running then
        match aenv.create_task_exn with
        | some e => handle e
        | none => (.ok (), [.createTask collection data])
      else
        match aenv.run_until_complete_exn with
        | some e => handle e
        | none =>
            (.ok (), [.runUntilComplete (send_to_logger_hub settings net collection data)])

/-- Appends `(key, value)` to the record when the optional value was
supplied, mirroring `if v is not None: data[key] = v` (every key
inserted is fresh, so a Python dict insertion appends). -/
def addOpt (data : List (String × Value)) (key : String)
    (v : Option Value) : List (String × Value) :=
  match v with
  | some x => data ++ [(key, x)]
  | none => data

/-- The default of the `status` parameter of `build_ai_log_data`
(`status: str = "success"`). -/
def status_default : String := "success"

/-- `build_ai_log_data(...)`.  The wall-clock reading `time.time()` is
passed explicitly as `now`; parameters otherwise follow the Python
signature and the insertion order of the source. -/
def build_ai_log_data (model : String) (system_prompt : String)
    (user_prompt : String)
    (response : Option String) (finish_reason : Option String)
    (usage : Option (List (String × Value)))
    (status : String)
    (error : Option String)
    (latency_ms : Option ℚ)
    (pr_url : Option String) (command : Option String)
    (extra : Option (List (String × Value)))
    (now : ℚ) : List (String × Value) :=
  let data : List (String × Value) :=
    [("model", .str model),
     ("system_prompt", .str system_prompt),
     ("user_prompt", .str user_prompt),
     ("status", .str status),
     ("timestamp", .num now)]
  let data := addOpt data "response" (response.map .str)
  let data := addOpt data "finish_reason" (finish_reason.map .str)
  let data := addOpt data "usage" (usage.map .dict)
  let data := addOpt data "error" (error.map .str)
  let data := addOpt data "latency_ms" (latency_ms.map .num)
  let data := addOpt data "pr_url" (pr_url.map .str)
  let data := addOpt data "command" (command.map .str)
  let data := addOpt data "extra" (extra.map .dict)
  data

/-- A key is present in a record. -/
def hasKey (key : String) (record : List (String × Value)) : Bool :=
  (record.lookup key).isSome

/-- A record with the `timestamp` entry removed; used to state that the
clock influences nothing but the timestamp field. -/
def removeTimestamp (record : List (String × Value)) : List (String × Value) :=
  record.filter (fun p => p.1 != "timestamp")

@[simp]
theorem lookup_append (key : String) (l1 l2 : List (String × Value)) :
    List.lookup key (l1 ++ l2) = (List.lookup key l1).or (List.lookup key l2) := by
  induction l1 with
  | nil => simp
  | cons p t ih =>
      simp only [List.cons_append, List.lookup]
      split <;> simp [*]

@[simp]
theorem lookup_addOpt (key k : String) (d : List (String × Value)) (v : Option Value) :
    List.lookup key (addOpt d k v) =
      (List.lookup key d).or (if key == k then v else none) := by
  cases v with
  | none => simp [addOpt]
  | some x =>
      simp only [addOpt, lookup_append, List.lookup]
      cases h : key == k <;> simp [h]

@[simp]
theorem removeTimestamp_addOpt (d : List (String × Value)) (k : String)
    (v : Option Value) (h : (k != "timestamp") = true) :
    removeTimestamp (addOpt d k v) = addOpt (removeTimestamp d) k v := by
  cases v with
  | none => simp [addOpt]
  | some x => simp [addOpt, removeTimestamp, List.filter_append, h]

/-- C3: for every choice of arguments, the record returned by
`build_ai_log_data` contains the keys `model`, `system_prompt`,
`user_prompt`, `status` and `timestamp`, and each optional key
(`response`, `finish_reason`, `usage`, `error`, `latency_ms`, `pr_url`,
`command`, `extra`) is present in the record if and only if the
corresponding argument was supplied as non-null. -/
theorem C3_build_key_presence
    (model system_prompt user_prompt : String)
    (response finish_reason : Option String)
    (usage : Option (List (String × Value)))
    (status : String) (error : Option String) (latency_ms : Option ℚ)
    (pr_url command : Option String)
    (extra : Option (List (String × Value))) (now : ℚ)
    (r : List (String × Value))
    (hr : r = build_ai_log_data model system_prompt user_prompt response
      finish_reason usage status error latency_ms pr_url command extra now) :
    (hasKey "model" r = true ∧ hasKey "system_prompt" r = true ∧
     hasKey "user_prompt" r = true ∧ hasKey "status" r = true ∧
     hasKey "timestamp" r = true) ∧
    (hasKey "response" r = response.isSome ∧
     hasKey "finish_reason" r = finish_reason.isSome ∧
     hasKey "usage" r = usage.isSome ∧
     hasKey "error" r = error.isSome ∧
     hasKey "latency_ms" r = latency_ms.isSome ∧
     hasKey "pr_url" r = pr_url.isSome ∧
     hasKey "command" r = command.isSome ∧
     hasKey "extra" r = extra.isSome) := by
  subst hr
  simp [build_ai_log_data, hasKey, List.lookup]

theorem C3_build_key_presence_witness :
    ((hasKey "model" (build_ai_log_data "gpt-4" "s" "u" (some "ok") none
        (some []) "success" none (some 7) none (some "review") none 0) = true ∧
      hasKey "system_prompt" (build_ai_log_data "gpt-4" "s" "u" (some "ok") none
        (some []) "success" none (some 7) none (some "review") none 0) = true ∧
      hasKey "user_prompt" (build_ai_log_data "gpt-4" "s" "u" (some "ok") none
        (some []) "success" none (some 7) none (some "review") none 0) = true ∧
      hasKey "status" (build_ai_log_data "gpt-4" "s" "u" (some "ok") none
        (some []) "success" none (some 7) none (some "review") none 0) = true ∧
      hasKey "timestamp" (build_ai_log_data "gpt-4" "s" "u" (some "ok") none
        (some []) "success" none (some 7) none (some "review") none 0) = true) ∧
    (hasKey "response" (build_ai_log_data "gpt-4" "s" "u" (some "ok") none
        (some []) "success" none (some 7) none (some "review") none 0) =
          (some "ok").isSome ∧
      hasKey "finish_reason" (build_ai_log_data "gpt-4" "s" "u" (some "ok") none
        (some []) "success" none (some 7) none (some "review") none 0) =
          (none : Option String).isSome ∧
      hasKey "usage" (build_ai_log_data "gpt-4" "s" "u" (some "ok") none
        (some []) "success" none (some 7) none (some "review") none 0) =
          (some ([] : List (String × Value))).isSome ∧
      hasKey "error" (build_ai_log_data "gpt-4" "s" "u" (some "ok") none
        (some []) "success" none (some 7) none (some "review") none 0) =
          (none : Option String).isSome ∧
      hasKey "latency_ms" (build_ai_log_data "gpt-4" "s" "u" (some "ok") none
        (some []) "success" none (some 7) none (some "review") none 0) =
          (some (7 : ℚ)).isSome ∧
      hasKey "pr_url" (build_ai_log_data "gpt-4" "s" "u" (some "ok") none
        (some []) "success" none (some 7) none (some "review") none 0) =
          (none : Option String).isSome ∧
      hasKey "command" (build_ai_log_data "gpt-4" "s" "u" (some "ok") none
        (some []) "success" none (some 7) none (some "review") none 0) =
          (some "review").isSome ∧
      hasKey "extra" (build_ai_log_data "gpt-4" "s" "u" (some "ok") none
        (some []) "success" none (some 7) none (some "review") none 0) =
          (none : Option (List (String × Value))).isSome)) :=
  C3_build_key_presence "gpt-4" "s" "u" (some "ok") none (some []) "success"
    none (some 7) none (some "review") none 0 _ rfl

/-- C6: `build_ai_log_data("gpt-4", "sys", "usr", response="ok",
status="success")` returns a record whose entries are exactly `model`,
`system_prompt`, `user_prompt`, `status` (equal to "success"),
`timestamp`, and `response` (equal to "ok"), with no other optional key
present, for any clock reading `t`. -/
theorem C6_build_example (t : ℚ) :
    build_ai_log_data "gpt-4" "sys" "usr" (some "ok") none none "success"
      none none none none none t =
      [("model", .str "gpt-4"), ("system_prompt", .str "sys"),
       ("user_prompt", .str "usr"), ("status", .str "success"),
       ("timestamp", .num t), ("response", .str "ok")] := rfl

/-- C9: `build_ai_log_data` is a pure total function, deterministic
except for the clock reading: changing the clock reading changes
nothing outside the `timestamp` entry, and the `timestamp` entry equals
the supplied clock reading. -/
theorem C9_build_deterministic_mod_timestamp
    (model system_prompt user_prompt : String)
    (response finish_reason : Option String)
    (usage : Option (List (String × Value)))
    (status : String) (error : Option String) (latency_ms : Option ℚ)
    (pr_url command : Option String)
    (extra : Option (List (String × Value))) (t1 t2 : ℚ) :
    removeTimestamp (build_ai_log_data model system_prompt user_prompt response
        finish_reason usage status error latency_ms pr_url command extra t1) =
      removeTimestamp (build_ai_log_data model system_prompt user_prompt response
        finish_reason usage status error latency_ms pr_url command extra t2) ∧
    List.lookup "timestamp" (build_ai_log_data model system_prompt user_prompt
        response finish_reason usage status error latency_ms pr_url command
        extra t1) = some (.num t1) := by
  constructor
  · simp only [build_ai_log_data]
    simp
    rfl
  · simp [build_ai_log_data, List.lookup]

/-- C10: when `build_ai_log_data` is called with the default value of
its `status` parameter (`"success"`, i.e. the caller omitted it), the
returned record's `status` entry equals `"success"`. -/
theorem C10_build_status_default
    (model system_prompt user_prompt : String)
    (response finish_reason : Option String)
    (usage : Option (List (String × Value)))
    (error : Option String) (latency_ms : Option ℚ)
    (pr_url command : Option String)
    (extra : Option (List (String × Value))) (now : ℚ) :
    List.lookup "status" (build_ai_log_data model system_prompt user_prompt
      response finish_reason usage status_default error latency_ms pr_url
      command extra now) = some (.str "success") := by
  simp [build_ai_log_data, status_default, List.lookup]

/-- C1: with both settings configured, `send_to_logger_hub` never lets
an exception escape to the caller (its result is always a returned
boolean), and it returns `True` exactly when the network attempt yields
an HTTP 200 response; any other status, a timeout, and any other
transport or runtime error yield a returned `False`. -/
theorem C1_send_reports_success_iff_200 (settings : Settings)
    (net : Request → NetOutcome) (collection : String)
    (data : List (String × Value))
    (he : settings.endpoint ≠ "") (hk : settings.api_key ≠ "") :
    (∃ b, (send_to_logger_hub settings net collection data).result = .ok b) ∧
    ((send_to_logger_hub settings net collection data).result = .ok true ↔
      net (mkRequest settings collection data) = .status 200) := by
  cases h : net (mkRequest settings collection data) with
  | status code =>
      by_cases h200 : code = 200 <;>
        simp [send_to_logger_hub, he, hk, h, h200]
  | raise e => cases e <;> simp [send_to_logger_hub, he, hk, h]

theorem C1_send_reports_success_iff_200_witness :
    ((Settings.mk "http://hub" "key").endpoint ≠ "" ∧
     (Settings.mk "http://hub" "key").api_key ≠ "") ∧
    ((∃ b, (send_to_logger_hub ⟨"http://hub", "key"⟩
        (fun _ => .status 200) "ai_logs" []).result = .ok b) ∧
     ((send_to_logger_hub ⟨"http://hub", "key"⟩
        (fun _ => .status 200) "ai_logs" []).result = .ok true ↔
      (fun _ => NetOutcome.status 200)
        (mkRequest ⟨"http://hub", "key"⟩ "ai_logs" []) = .status 200)) :=
  ⟨⟨by decide, by decide⟩,
   C1_send_reports_success_iff_200 ⟨"http://hub", "key"⟩
     (fun _ => .status 200) "ai_logs" [] (by decide) (by decide)⟩

/-- C2: if the configured endpoint or API key is empty or missing at
call time, `send_to_logger_hub` issues no network request and returns
`False` (a returned value, not an exception). -/
theorem C2_send_config_gate (settings : Settings)
    (net : Request → NetOutcome) (collection : String)
    (data : List (String × Value))
    (h : settings.endpoint = "" ∨ settings.api_key = "") :
    (send_to_logger_hub settings net collection data).requests = [] ∧
    (send_to_logger_hub settings net collection data).result = .ok false := by
  unfold send_to_logger_hub
  rw [if_pos h]
  exact ⟨rfl, rfl⟩

theorem C2_send_config_gate_witness :
    ((Settings.mk "" "key").endpoint = "" ∨
     (Settings.mk "" "key").api_key = "") ∧
    ((send_to_logger_hub ⟨"", "key"⟩
        (fun _ => .status 200) "ai_logs" []).requests = [] ∧
     (send_to_logger_hub ⟨"", "key"⟩
        (fun _ => .status 200) "ai_logs" []).result = .ok false) :=
  ⟨Or.inl rfl,
   C2_send_config_gate ⟨"", "key"⟩ (fun _ => .status 200) "ai_logs" []
     (Or.inl rfl)⟩

/-- C5: with both settings configured, the one request
`send_to_logger_hub` issues is an HTTP POST to `{ENDPOINT}/log` with
headers `Content-Type: application/json` and `x-api-key: {API_KEY}`,
and a JSON body that is an object with exactly the keys `collection`
(the given collection name) and `data` (the given record). -/
theorem C5_send_request_shape (settings : Settings)
    (net : Request → NetOutcome) (collection : String)
    (data : List (String × Value))
    (he : settings.endpoint ≠ "") (hk : settings.api_key ≠ "") :
    (send_to_logger_hub settings net collection data).requests =
      [mkRequest settings collection data] ∧
    (mkRequest settings collection data).method = "POST" ∧
    (mkRequest settings collection data).url = settings.endpoint ++ "/log" ∧
    (mkRequest settings collection data).headers =
      [("Content-Type", "application/json"),
       ("x-api-key", settings.api_key)] ∧
    (mkRequest settings collection data).body =
      [("collection", .str collection), ("data", .dict data)] := by
  refine ⟨?_, rfl, rfl, rfl, rfl⟩
  cases h : net (mkRequest settings collection data) with
  | status code =>
      by_cases h200 : code = 200 <;>
        simp [send_to_logger_hub, he, hk, h, h200]
  | raise e => cases e <;> simp [send_to_logger_hub, he, hk, h]

theorem C5_send_request_shape_witness :
    ((Settings.mk "http://hub" "key").endpoint ≠ "" ∧
     (Settings.mk "http://hub" "key").api_key ≠ "") ∧
    ((send_to_logger_hub ⟨"http://hub", "key"⟩
        (fun _ => .status 500) "ai_logs" []).requests =
      [mkRequest ⟨"http://hub", "key"⟩ "ai_logs" []] ∧
     (mkRequest ⟨"http://hub", "key"⟩ "ai_logs" []).method = "POST" ∧
     (mkRequest ⟨"http://hub", "key"⟩ "ai_logs" []).url =
       (Settings.mk "http://hub" "key").endpoint ++ "/log" ∧
     (mkRequest ⟨"http://hub", "key"⟩ "ai_logs" []).headers =
       [("Content-Type", "application/json"),
        ("x-api-key", (Settings.mk "http://hub" "key").api_key)] ∧
     (mkRequest ⟨"http://hub", "key"⟩ "ai_logs" []).body =
       [("collection", .str "ai_logs"), ("data", .dict [])]) :=
  ⟨⟨by decide, by decide⟩,
   C5_send_request_shape ⟨"http://hub", "key"⟩ (fun _ => .status 500)
     "ai_logs" [] (by decide) (by decide)⟩

/-- C7: the delivery timeout is the fixed constant 5 seconds: the
issued request carries total timeout `LOGGER_HUB_TIMEOUT = 5`, and when
the network attempt ends in a timeout (the outcome for an endpoint that
never responds within the bound), `send_to_logger_hub` returns `False`
without letting the `asyncio.TimeoutError` escape. -/
theorem C7_send_timeout_bounded (settings : Settings)
    (net : Request → NetOutcome) (collection : String)
    (data : List (String × Value))
    (he : settings.endpoint ≠ "") (hk : settings.api_key ≠ "")
    (ht : net (mkRequest settings collection data) = .raise .timeoutError) :
    (send_to_logger_hub settings net collection data).result = .ok false ∧
    (mkRequest settings collection data).timeout = LOGGER_HUB_TIMEOUT ∧
    LOGGER_HUB_TIMEOUT = 5 := by
  refine ⟨?_, rfl, rfl⟩
  simp [send_to_logger_hub, he, hk, ht]

theorem C7_send_timeout_bounded_witness :
    ((Settings.mk "http://hub" "key").endpoint ≠ "" ∧
     (Settings.mk "http://hub" "key").api_key ≠ "" ∧
     (fun _ => NetOutcome.raise .timeoutError)
       (mkRequest ⟨"http://hub", "key"⟩ "ai_logs" []) =
         .raise .timeoutError) ∧
    ((send_to_logger_hub ⟨"http://hub", "key"⟩
        (fun _ => .raise .timeoutError) "ai_logs" []).result = .ok false ∧
     (mkRequest ⟨"http://hub", "key"⟩ "ai_logs" []).timeout =
       LOGGER_HUB_TIMEOUT ∧
     LOGGER_HUB_TIMEOUT = 5) :=
  ⟨⟨by decide, by decide, rfl⟩,
   C7_send_timeout_bounded ⟨"http://hub", "key"⟩
     (fun _ => .raise .timeoutError) "ai_logs" [] (by decide) (by decide) rfl⟩

/-- C4, counterexample: the claim that `log_ai_request_sync` never
raises "even when the fallback scheduling strategy itself fails" is
false.  When `asyncio.get_event_loop()` raises `RuntimeError` and the
fallback `asyncio.run` inside the `except RuntimeError:` handler itself
raises, that second exception is not caught by the sibling
`except Exception:` clause and escapes to the caller. -/
theorem C4_counterexample_fallback_raises :
    (log_ai_request_sync
        ⟨Except.error (PyExn.runtimeError "no current event loop"),
         none, none, some (PyExn.runtimeError "loop creation failed")⟩
        ⟨"http://hub", "key"⟩ (fun _ => .status 200) "ai_logs" []).fst =
      .raised (PyExn.runtimeError "loop creation failed") ∧
    (log_ai_request_sync
        ⟨Except.error (PyExn.runtimeError "no current event loop"),
         none, none, some (PyExn.runtimeError "loop creation failed")⟩
        ⟨"http://hub", "key"⟩ (fun _ => .status 200) "ai_logs" []).fst ≠
      .ok () :=
  ⟨rfl, by decide⟩

/-- C4, amended: under every branch of `log_ai_request_sync` (active
loop, inactive loop, and the `asyncio.run` fallback taken when the
`try` block raises `RuntimeError`), every failure arising in the `try`
block is caught and reduced to a debug diagnostic or the fallback, and
whenever the fallback `asyncio.run` does not itself raise, the wrapper
returns normally and never raises to its caller.  (If the fallback
itself raises, that exception propagates — see the counterexample.) -/
theorem C4_amended_no_raise_when_fallback_ok (aenv : AsyncEnv)
    (settings : Settings) (net : Request → NetOutcome)
    (collection : String) (data : List (String × Value))
    (h : aenv.asyncio_run_exn = none) :
    (log_ai_request_sync aenv settings net collection data).fst = .ok () := by
  obtain ⟨g, ct, rc, ar⟩ := aenv
  cases h
  cases g with
  | error e => cases e <;> rfl
  | ok loop =>
      obtain ⟨ru⟩ := loop
      cases ru with
      | false =>
          cases rc with
          | none => rfl
          | some e => cases e <;> rfl
      | true =>
          cases ct with
          | none => rfl
          | some e => cases e <;> rfl

theorem C4_amended_no_raise_when_fallback_ok_witness :
    (AsyncEnv.mk (.error (PyExn.runtimeError "no current event loop"))
        none none none).asyncio_run_exn = none ∧
    (log_ai_request_sync
        ⟨.error (PyExn.runtimeError "no current event loop"), none, none, none⟩
        ⟨"http://hub", "key"⟩ (fun _ => .status 200) "ai_logs" []).fst =
      .ok () :=
  ⟨rfl,
   C4_amended_no_raise_when_fallback_ok
     ⟨.error (PyExn.runtimeError "no current event loop"), none, none, none⟩
     ⟨"http://hub", "key"⟩ (fun _ => .status 200) "ai_logs" [] rfl⟩

/-- C8: when `asyncio.get_event_loop()` yields a loop (and the chosen
scheduling call does not itself fail), exactly one of two paths is
taken: with a running loop the wrapper only schedules delivery as a
detached task (`asyncio.create_task`) and returns without executing the
network call; with a non-running loop it runs the delivery to
completion (`loop.run_until_complete`) before returning.  In both cases
it returns normally. -/
theorem C8_dispatch_paths (aenv : AsyncEnv) (settings : Settings)
    (net : Request → NetOutcome) (collection : String)
    (data : List (String × Value)) (loop : EventLoop)
    (hg : aenv.get_event_loop = .ok loop)
    (hct : aenv.create_task_exn = none)
    (hrc : aenv.run_until_complete_exn = none) :
    log_ai_request_sync aenv settings net collection data =
      (.ok (),
       if loop.is_running then [.createTask collection data]
       else [.runUntilComplete
               (send_to_logger_hub settings net collection data)]) := by
  cases hr : loop.is_running <;>
    simp [log_ai_request_sync, hg, hct, hrc, hr]

theorem C8_dispatch_paths_witness :
    ((AsyncEnv.mk (.ok ⟨true⟩) none none none).get_event_loop =
        .ok ⟨true⟩ ∧
     log_ai_request_sync ⟨.ok ⟨true⟩, none, none, none⟩
        ⟨"http://hub", "key"⟩ (fun _ => .status 200) "ai_logs" [] =
       (.ok (), [.createTask "ai_logs" []])) ∧
    ((AsyncEnv.mk (.ok ⟨false⟩) none none none).get_event_loop =
        .ok ⟨false⟩ ∧
     log_ai_request_sync ⟨.ok ⟨false⟩, none, none, none⟩
        ⟨"http://hub", "key"⟩ (fun _ => .status 200) "ai_logs" [] =
       (.ok (), [.runUntilComplete (send_to_logger_hub
           ⟨"http://hub", "key"⟩ (fun _ => .status 200) "ai_logs" [])])) := by
  constructor
  · refine ⟨rfl, ?_⟩
    have h := C8_dispatch_paths ⟨.ok ⟨true⟩, none, none, none⟩
      ⟨"http://hub", "key"⟩ (fun _ => .status 200) "ai_logs" [] ⟨true⟩
      rfl rfl rfl
    simpa using h
  · refine ⟨rfl, ?_⟩
    have h := C8_dispatch_paths ⟨.ok ⟨false⟩, none, none, none⟩
      ⟨"http://hub", "key"⟩ (fun _ => .status 200) "ai_logs" [] ⟨false⟩
      rfl rfl rfl
    simpa using h

end LoggerHub
